import Mathlib

/-!
Shallow embedding of the realtime voice session manager
(frontend/src/hooks/useRealtimeVoice.ts together with the wire types in
types/realtime.ts).  Browser objects (peer connection, data channel, media
stream, audio element) are modelled by small records holding exactly the
observable fields the hook reads or writes; asynchronous collaborators
(token endpoint, getUserMedia, the SDP signaling endpoint) are injected as
an environment record, and each operation returns the updated state
together with the list of externally visible actions it performed.
-/

namespace RealtimeVoice

/-- ContentPart from types/realtime.ts: a kind tag plus optional text
payload (audio payloads are not read by the hook and are omitted). -/
structure ContentPart where
  type : String
  text : Option String := none
  deriving DecidableEq

/-- ConversationItem from types/realtime.ts: tagged item with optional
role and optional content list (both optional in the source interface). -/
structure ConversationItem where
  type : String
  role : Option String := none
  content : Option (List ContentPart) := none
  deriving DecidableEq

/-- VoiceInterfaceState from types/realtime.ts, the UI-facing state of the
hook. -/
structure VoiceInterfaceState where
  isListening : Bool
  isConnected : Bool
  isConnecting : Bool
  isSpeaking : Bool
  hasPermission : Bool
  error : Option String := none
  currentResponse : Option String := none
  conversationHistory : List ConversationItem
  deriving DecidableEq

/-- The initial state passed to useState in useRealtimeVoice (lines 49-56
of the hook). -/
def initialState : VoiceInterfaceState :=
  { isListening := false, isConnected := false, isConnecting := false,
    isSpeaking := false, hasPermission := false, conversationHistory := [] }

/-- RTCDataChannel ready states; opened models the DOM string value
"open". -/
inductive RTCDataChannelState where
  | connecting
  | opened
  | closing
  | closed
  deriving DecidableEq

/-- The slice of an RTCDataChannel the hook observes. -/
structure RTCDataChannel where
  readyState : RTCDataChannelState
  deriving DecidableEq

/-- The slice of an RTCPeerConnection the hook observes. -/
structure RTCPeerConnection where
  signalingState : String := "stable"
  deriving DecidableEq

/-- A MediaStreamTrack: kind plus the enabled flag toggled by mute. -/
structure MediaStreamTrack where
  kind : String
  enabled : Bool := true
  deriving DecidableEq

/-- A MediaStream as a list of tracks. -/
structure MediaStream where
  tracks : List MediaStreamTrack
  deriving DecidableEq

/-- The slice of an HTMLAudioElement the hook observes. -/
structure HTMLAudioElement where
  autoplay : Bool := true
  srcObject : Option MediaStream := none
  deriving DecidableEq

/-- WebRTCConnectionState from types/realtime.ts: the connection state
record held in connectionRef. -/
structure WebRTCConnectionState where
  connected : Bool
  connecting : Bool
  error : Option String := none
  peerConnection : Option RTCPeerConnection := none
  dataChannel : Option RTCDataChannel := none
  audioElement : Option HTMLAudioElement := none
  localStream : Option MediaStream := none
  deriving DecidableEq

/-- The all-null baseline of connectionRef (lines 59-62 of the hook and
the reset literal at lines 404-407). -/
def initialConnectionState : WebRTCConnectionState :=
  { connected := false, connecting := false }

/-- Outbound client events (RealtimeClientEvent in types/realtime.ts);
payloads are reduced to the fields the hook actually fills in. -/
inductive RealtimeClientEvent where
  | sessionUpdate (model : String) (instructions : Option String)
  | conversationItemCreate (item : ConversationItem)
  | responseCreate
  | inputAudioBufferAppend (audio : String)
  | inputAudioBufferCommit
  | inputAudioBufferClear
  deriving DecidableEq

/-- Inbound server events (RealtimeServerEvent in types/realtime.ts),
reduced to the payload fields read by handleServerEvent. -/
inductive RealtimeServerEvent where
  | sessionCreated
  | sessionUpdated
  | conversationItemCreated (item : ConversationItem)
  | responseCreated
  | responseDone (output : List ConversationItem)
  | responseAudioDelta (delta : String)
  | responseTextDelta (delta : String)
  | speechStarted
  | speechStopped
  | errorEvent (etype : String) (message : String)
  deriving DecidableEq

/-- Callbacks fired toward the embedding UI (the option callbacks of
useRealtimeVoice). -/
inductive Notification where
  | connectedN
  | disconnectedN
  | errorN (message : String)
  | responseReceived (text : String)
  | speechStartedN
  | speechStoppedN
  deriving DecidableEq

/-- sendClientEvent (hook lines 84-89): serialize the event onto the data
channel only when a channel exists and its readyState is open; the result
is the list of events actually sent on the wire. -/
def sendClientEvent (conn : WebRTCConnectionState) (event : RealtimeClientEvent) :
    List RealtimeClientEvent :=
  match conn.dataChannel with
  | some dc => if dc.readyState = RTCDataChannelState.opened then [event] else []
  | none => []

/-- The text extraction of the response.done case (hook lines 122-124):
first assistant item of the output, then its first content part of type
text, then that part's text field; optional chaining at every step. -/
def extractResponseText (output : List ConversationItem) : Option String :=
  match output.find? (fun item => item.role == some "assistant") with
  | none => none
  | some item =>
    match item.content with
    | none => none
    | some parts =>
      match parts.find? (fun part => part.type == "text") with
      | none => none
      | some part => part.text

/-- handleServerEvent (hook lines 92-154): dispatch one inbound event to a
new state plus the notifications fired.  The response.done case fires the
response-received callback only when the extracted text is truthy, i.e.
present and nonempty; response.audio.delta matches no case of the switch
and is ignored. -/
def handleServerEvent (event : RealtimeServerEvent) (s : VoiceInterfaceState) :
    VoiceInterfaceState × List Notification :=
  match event with
  | RealtimeServerEvent.sessionCreated => (s, [])
  | RealtimeServerEvent.sessionUpdated => (s, [])
  | RealtimeServerEvent.conversationItemCreated item =>
      ({ s with conversationHistory := s.conversationHistory ++ [item] }, [])
  | RealtimeServerEvent.responseCreated =>
      ({ s with isSpeaking := true }, [])
  | RealtimeServerEvent.responseDone output =>
      let s1 := { s with isSpeaking := false }
      match extractResponseText output with
      | some text =>
        if text = "" then (s1, []) else (s1, [Notification.responseReceived text])
      | none => (s1, [])
  | RealtimeServerEvent.responseAudioDelta _ => (s, [])
  | RealtimeServerEvent.responseTextDelta delta =>
      ({ s with currentResponse := some ((s.currentResponse.getD "") ++ delta) }, [])
  | RealtimeServerEvent.speechStarted =>
      ({ s with isListening := true }, [Notification.speechStartedN])
  | RealtimeServerEvent.speechStopped =>
      ({ s with isListening := false }, [Notification.speechStoppedN])
  | RealtimeServerEvent.errorEvent etype message =>
      let m := etype ++ ": " ++ message
      ({ s with error := some m }, [Notification.errorN m])

/-- Feed a list of inbound events through handleServerEvent in order,
collecting the notifications in firing order. -/
def processEvents (events : List RealtimeServerEvent) (s : VoiceInterfaceState) :
    VoiceInterfaceState × List Notification :=
  match events with
  | [] => (s, [])
  | e :: rest =>
    let r1 := handleServerEvent e s
    let r2 := processEvents rest r1.1
    (r2.1, r1.2 ++ r2.2)

/-- The teardown side effects of disconnect, in order (hook lines
383-401); each handle that is absent contributes no step. -/
inductive TeardownStep where
  | closeDataChannel
  | closePeerConnection
  | stopTrack (index : Nat)
  | detachAudioSink
  deriving DecidableEq

/-- The ordered list of teardown side effects disconnect performs on a
given connection state. -/
def teardownSteps (conn : WebRTCConnectionState) : List TeardownStep :=
  (match conn.dataChannel with
   | some _ => [TeardownStep.closeDataChannel]
   | none => []) ++
  (match conn.peerConnection with
   | some _ => [TeardownStep.closePeerConnection]
   | none => []) ++
  (match conn.localStream with
   | some stream => (List.range stream.tracks.length).map TeardownStep.stopTrack
   | none => []) ++
  (match conn.audioElement with
   | some _ => [TeardownStep.detachAudioSink]
   | none => [])

/-- Result of a disconnect call. -/
structure DisconnectResult where
  conn : WebRTCConnectionState
  ui : VoiceInterfaceState
  steps : List TeardownStep
  notifications : List Notification
  deriving DecidableEq

/-- disconnect (hook lines 380-422): run the teardown steps, reset the
connection state to the all-null baseline, reset exactly the five UI
fields isConnected, isConnecting, isListening, isSpeaking and error, and
fire the disconnected callback. -/
def disconnect (conn : WebRTCConnectionState) (s : VoiceInterfaceState) : DisconnectResult :=
  { conn := initialConnectionState,
    ui := { s with isConnected := false, isConnecting := false, isListening := false,
                   isSpeaking := false, error := none },
    steps := teardownSteps conn,
    notifications := [Notification.disconnectedN] }

/-- The user message item sendMessage constructs (hook lines 432-439). -/
def userMessageItem (message : String) : ConversationItem :=
  { type := "message", role := some "user",
    content := some [{ type := "input_text", text := some message }] }

/-- sendMessage (hook lines 425-455): when the connection is not in the
connected state, warn and return without any send or state change;
otherwise send conversation.item.create then response.create and append
the user item to the conversation history. -/
def sendMessage (conn : WebRTCConnectionState) (s : VoiceInterfaceState) (message : String) :
    VoiceInterfaceState × List RealtimeClientEvent :=
  if !conn.connected then (s, [])
  else
    let item := userMessageItem message
    ({ s with conversationHistory := s.conversationHistory ++ [item] },
     sendClientEvent conn (RealtimeClientEvent.conversationItemCreate item) ++
       sendClientEvent conn RealtimeClientEvent.responseCreate)

/-- clearConversation (hook lines 470-476): empty the history and drop the
scratch response text. -/
def clearConversation (s : VoiceInterfaceState) : VoiceInterfaceState :=
  { s with conversationHistory := [], currentResponse := none }

/-- The session configuration fields of the token response the hook reads
(session_config.model and session_config.instructions). -/
structure RealtimeSessionConfig where
  model : Option String := none
  instructions : Option String := none
  deriving DecidableEq

/-- The JSON body returned by the token endpoint, with every field
optional as it is at runtime: a malformed success body may lack the
secret value, and an error body carries an error string. -/
structure TokenResponseBody where
  value : Option String := none
  expires_at : Option Nat := none
  session_config : Option RealtimeSessionConfig := none
  error : Option String := none
  deriving DecidableEq

/-- An HTTP response as the hook observes it: ok flag, status code and
parsed body. -/
structure HttpResponse (α : Type) where
  ok : Bool
  status : Nat
  body : α
  deriving DecidableEq

/-- getEphemeralToken (hook lines 157-172): one POST to the token
endpoint; on a non-ok status throw the error field of the body (or the
fallback message), otherwise return the parsed body unchecked. -/
def getEphemeralToken (response : HttpResponse TokenResponseBody) :
    Except String TokenResponseBody :=
  if !response.ok then
    Except.error (response.body.error.getD "Failed to get ephemeral token")
  else
    Except.ok response.body

/-- Outcomes of the external collaborators consumed by one connect
attempt: the token endpoint response, the getUserMedia outcome (none
models a rejection: permission denied or no input device), the signaling
endpoint response to the SDP offer, and whether setRemoteDescription
rejects. -/
structure ConnectEnv where
  tokenResponse : HttpResponse TokenResponseBody
  micResult : Option MediaStream
  sdpResponse : HttpResponse String
  remoteDescError : Option String := none

/-- The externally visible actions of a connect attempt, in program
order. -/
inductive ConnectStep where
  | fetchToken
  | createPeerConnection
  | createAudioElement
  | addTransceiver
  | getUserMedia
  | addTrack
  | createDataChannel
  | createOffer
  | fetchSdp
  | setRemoteDescription
  deriving DecidableEq

/-- Result of a connect call: connection state, UI state, the actions
performed, and the notifications fired during the call itself. -/
structure ConnectResult where
  conn : WebRTCConnectionState
  ui : VoiceInterfaceState
  steps : List ConnectStep
  notifications : List Notification
  deriving DecidableEq

/-- The catch block of connect (hook lines 362-376): reset the connecting
and connected flags on both states, record the error message, fire the
error callback.  No teardown runs here: the handles already stored in the
connection state are left in place. -/
def connectCatch (message : String) (conn : WebRTCConnectionState)
    (s : VoiceInterfaceState) (steps : List ConnectStep) : ConnectResult :=
  { conn := { conn with connecting := false, connected := false },
    ui := { s with isConnecting := false, isConnected := false, error := some message },
    steps := steps,
    notifications := [Notification.errorN message] }

/-- connect (hook lines 175-377).  Guard: a call while connecting or
connected returns at once.  Otherwise: mark connecting, fetch the
ephemeral token, create the peer connection and audio element, add the
audio transceiver, request the microphone (a rejection sets the error and
hasPermission false and returns from inside the try block), store the
stream and add its first audio track when the signaling state is not
closed, create the data channel, create the offer, wait for ICE
gathering, POST the offer SDP, and apply the returned answer; any
exception lands in the catch block.  On the success path the call returns
with connecting still true: the connected flags flip only later, in the
data channel open callback. -/
def connect (env : ConnectEnv) (conn0 : WebRTCConnectionState)
    (s0 : VoiceInterfaceState) : ConnectResult :=
  if conn0.connecting || conn0.connected then
    { conn := conn0, ui := s0, steps := [], notifications := [] }
  else
    let s1 := { s0 with isConnecting := true, error := none }
    let conn1 := { conn0 with connecting := true }
    match getEphemeralToken env.tokenResponse with
    | Except.error msg => connectCatch msg conn1 s1 [ConnectStep.fetchToken]
    | Except.ok _ =>
      let pc : RTCPeerConnection := { signalingState := "stable" }
      let conn2 := { conn1 with peerConnection := some pc }
      let audioEl : HTMLAudioElement := { autoplay := true }
      let conn3 := { conn2 with audioElement := some audioEl }
      let steps3 := [ConnectStep.fetchToken, ConnectStep.createPeerConnection,
                     ConnectStep.createAudioElement, ConnectStep.addTransceiver]
      match env.micResult with
      | none =>
        { conn := conn3,
          ui := { s1 with error := some "Microphone permission denied or not available",
                          hasPermission := false },
          steps := steps3 ++ [ConnectStep.getUserMedia],
          notifications := [] }
      | some stream =>
        let conn4 := { conn3 with localStream := some stream }
        let addTrackSteps :=
          match (stream.tracks.filter (fun t => t.kind == "audio")).head? with
          | some _ =>
            if pc.signalingState ≠ "closed" then [ConnectStep.addTrack] else []
          | none => []
        let s2 := { s1 with hasPermission := true }
        let dc : RTCDataChannel := { readyState := RTCDataChannelState.connecting }
        let conn5 := { conn4 with dataChannel := some dc }
        let steps5 := steps3 ++ [ConnectStep.getUserMedia] ++ addTrackSteps ++
                      [ConnectStep.createDataChannel, ConnectStep.createOffer,
                       ConnectStep.fetchSdp]
        if !env.sdpResponse.ok then
          let errText := env.sdpResponse.body
          let msg := "Failed to connect to OpenAI: " ++ toString env.sdpResponse.status ++
                     (if errText ≠ "" then " - " ++ errText else "")
          connectCatch msg conn5 s2 steps5
        else
          match env.remoteDescError with
          | some msg =>
            connectCatch msg conn5 s2 (steps5 ++ [ConnectStep.setRemoteDescription])
          | none =>
            { conn := conn5, ui := s2,
              steps := steps5 ++ [ConnectStep.setRemoteDescription],
              notifications := [] }

/-- Result of the data channel open callback. -/
structure OpenResult where
  conn : WebRTCConnectionState
  ui : VoiceInterfaceState
  sent : List RealtimeClientEvent
  notifications : List Notification
  deriving DecidableEq

/-- The data channel onopen callback (hook lines 244-291): the channel is
now open, the connected flags flip true and connecting false, the error
clears, the connected callback fires, and the initial session.update is
sent with the model from the token session_config defaulted to
gpt-realtime. -/
def dataChannelOnOpen (tokenData : TokenResponseBody) (conn : WebRTCConnectionState)
    (s : VoiceInterfaceState) : OpenResult :=
  let openedChannel := conn.dataChannel.map
    (fun dc => { dc with readyState := RTCDataChannelState.opened })
  let conn1 := { conn with
                 connected := true
                 connecting := false
                 dataChannel := openedChannel }
  let ui1 := { s with isConnected := true, isConnecting := false, error := none }
  let modelName := (tokenData.session_config.bind (fun c => c.model)).getD "gpt-realtime"
  let instr := tokenData.session_config.bind (fun c => c.instructions)
  { conn := conn1, ui := ui1,
    sent := sendClientEvent conn1 (RealtimeClientEvent.sessionUpdate modelName instr),
    notifications := [Notification.connectedN] }

deriving instance DecidableEq for Except

/-! Concrete fixtures used for scenario claims and witnesses. -/

/-- A microphone stream with one audio track. -/
def micStream1 : MediaStream := { tracks := [{ kind := "audio" }] }

/-- A well-formed token body. -/
def okTokenBody : TokenResponseBody :=
  { value := some "tok", expires_at := some 60,
    session_config := some { model := some "m1" } }

/-- A successful token endpoint response. -/
def okTokenResponse : HttpResponse TokenResponseBody :=
  { ok := true, status := 200, body := okTokenBody }

/-- A failing token endpoint response. -/
def failTokenResponse : HttpResponse TokenResponseBody :=
  { ok := false, status := 500, body := { error := some "boom" } }

/-- A success token response whose body lacks the secret value field. -/
def missingSecretResponse : HttpResponse TokenResponseBody :=
  { ok := true, status := 200, body := { session_config := some { model := some "m1" } } }

/-- A successful SDP answer from the signaling endpoint. -/
def okSdpResponse : HttpResponse String :=
  { ok := true, status := 200, body := "v=0 answer" }

/-- A rejected SDP offer. -/
def failSdpResponse : HttpResponse String :=
  { ok := false, status := 502, body := "bad gateway" }

/-- Environment of a fully successful connect attempt. -/
def envSuccess : ConnectEnv :=
  { tokenResponse := okTokenResponse, micResult := some micStream1,
    sdpResponse := okSdpResponse }

/-- Environment whose token fetch fails. -/
def envTokenFail : ConnectEnv :=
  { tokenResponse := failTokenResponse, micResult := some micStream1,
    sdpResponse := okSdpResponse }

/-- Environment whose microphone request is rejected. -/
def envMicFail : ConnectEnv :=
  { tokenResponse := okTokenResponse, micResult := none,
    sdpResponse := okSdpResponse }

/-- Environment whose SDP offer is rejected by the signaling endpoint. -/
def envSdpFail : ConnectEnv :=
  { tokenResponse := okTokenResponse, micResult := some micStream1,
    sdpResponse := failSdpResponse }

/-- Environment whose token response is a success body missing the secret. -/
def envMissingSecret : ConnectEnv :=
  { tokenResponse := missingSecretResponse, micResult := some micStream1,
    sdpResponse := okSdpResponse }

/-! Claim theorems. -/

/-- C4: calling connect while the connection state is already connecting or
already connected is a no-op: it returns immediately with both states
unchanged and performs no action at all — in particular no credential
fetch, no peer construction and no negotiation. -/
theorem connect_noop_when_connecting_or_connected (env : ConnectEnv)
    (conn0 : WebRTCConnectionState) (s0 : VoiceInterfaceState)
    (h : conn0.connecting = true ∨ conn0.connected = true) :
    connect env conn0 s0 =
      { conn := conn0, ui := s0, steps := [], notifications := [] } := by
  unfold connect
  rcases h with h | h <;> simp [h]

/-- Witness for C4 at a concrete already-connected state. -/
theorem connect_noop_when_connecting_or_connected_witness :
    connect envSuccess { initialConnectionState with connected := true } initialState =
      { conn := { initialConnectionState with connected := true }, ui := initialState,
        steps := [], notifications := [] } :=
  connect_noop_when_connecting_or_connected envSuccess
    { initialConnectionState with connected := true } initialState (Or.inr rfl)

/-- C5: sending an outbound client event while the data channel handle is
absent, or present but not in the open ready state, sends nothing on the
wire: a silent no-op that queues nothing. -/
theorem sendClientEvent_noop_when_channel_not_open (conn : WebRTCConnectionState)
    (event : RealtimeClientEvent)
    (h : ∀ dc, conn.dataChannel = some dc → dc.readyState ≠ RTCDataChannelState.opened) :
    sendClientEvent conn event = [] := by
  unfold sendClientEvent
  cases hdc : conn.dataChannel with
  | none => rfl
  | some dc => simp [h dc hdc]

/-- Witness for C5 at the baseline connection state with no channel. -/
theorem sendClientEvent_noop_when_channel_not_open_witness :
    sendClientEvent initialConnectionState RealtimeClientEvent.responseCreate = [] :=
  sendClientEvent_noop_when_channel_not_open initialConnectionState
    RealtimeClientEvent.responseCreate
    (by intro dc hdc; simp [initialConnectionState] at hdc)

/-- C7: teardown is idempotent and total: disconnect composed with itself
yields the same connection state and UI state as one disconnect, one
disconnect already reaches the all-null baseline, and a disconnect on the
already-empty baseline performs no teardown step (a no-op rather than an
error). -/
theorem disconnect_idempotent (conn : WebRTCConnectionState) (s : VoiceInterfaceState) :
    (disconnect (disconnect conn s).conn (disconnect conn s).ui).conn =
      (disconnect conn s).conn ∧
    (disconnect (disconnect conn s).conn (disconnect conn s).ui).ui =
      (disconnect conn s).ui ∧
    (disconnect conn s).conn = initialConnectionState ∧
    (disconnect (disconnect conn s).conn (disconnect conn s).ui).steps = [] ∧
    (disconnect initialConnectionState s).steps = [] :=
  ⟨rfl, rfl, rfl, rfl, rfl⟩

/-- C9: isListening and isSpeaking are independent booleans: the
response.created handler never touches isListening, the speech-started
handler never touches isSpeaking, and feeding response.created followed by
input_audio_buffer.speech_started yields both flags true simultaneously. -/
theorem listening_speaking_independent :
    (∀ s : VoiceInterfaceState,
      (handleServerEvent RealtimeServerEvent.responseCreated s).1.isListening =
        s.isListening ∧
      (handleServerEvent RealtimeServerEvent.responseCreated s).1.isSpeaking = true) ∧
    (∀ s : VoiceInterfaceState,
      (handleServerEvent RealtimeServerEvent.speechStarted s).1.isSpeaking =
        s.isSpeaking ∧
      (handleServerEvent RealtimeServerEvent.speechStarted s).1.isListening = true) ∧
    (processEvents [RealtimeServerEvent.responseCreated,
        RealtimeServerEvent.speechStarted] initialState).1.isSpeaking = true ∧
    (processEvents [RealtimeServerEvent.responseCreated,
        RealtimeServerEvent.speechStarted] initialState).1.isListening = true :=
  ⟨fun _ => ⟨rfl, rfl⟩, fun _ => ⟨rfl, rfl⟩, rfl, rfl⟩

/-- C10: sendMessage while the connection flag is false is a complete
no-op: nothing is sent on the side-channel and the whole UI state,
including the conversation history, is unchanged. -/
theorem sendMessage_noop_when_not_connected (conn : WebRTCConnectionState)
    (s : VoiceInterfaceState) (message : String) (h : conn.connected = false) :
    sendMessage conn s message = (s, []) := by
  unfold sendMessage
  simp [h]

/-- Witness for C10 at the baseline disconnected state. -/
theorem sendMessage_noop_when_not_connected_witness :
    sendMessage initialConnectionState initialState "hello" = (initialState, []) :=
  sendMessage_noop_when_not_connected initialConnectionState initialState "hello" rfl

/-- Helper: a run of conversation.item.created events appends exactly those
items to the history and changes nothing else. -/
theorem processEvents_itemCreated_fst (items : List ConversationItem)
    (s : VoiceInterfaceState) :
    (processEvents (items.map RealtimeServerEvent.conversationItemCreated) s).1 =
      { s with conversationHistory := s.conversationHistory ++ items } := by
  induction items generalizing s with
  | nil => simp [processEvents]
  | cons a rest ih =>
    simp only [List.map_cons, processEvents, handleServerEvent, ih]
    simp [List.append_assoc]

/-- C6: disconnect resets exactly isConnected, isConnecting, isListening,
isSpeaking and error, leaving conversationHistory, hasPermission and the
scratch response unchanged: after appending items via
conversation.item.created events, a disconnect still shows those items,
and clearConversation empties the history. -/
theorem disconnect_preserves_history_and_permission (conn : WebRTCConnectionState)
    (s : VoiceInterfaceState) (items : List ConversationItem) :
    (disconnect conn
        (processEvents (items.map RealtimeServerEvent.conversationItemCreated) s).1).ui =
      { s with conversationHistory := s.conversationHistory ++ items,
               isConnected := false, isConnecting := false, isListening := false,
               isSpeaking := false, error := none } ∧
    (disconnect conn
        (processEvents (items.map RealtimeServerEvent.conversationItemCreated) s).1).ui.hasPermission =
      s.hasPermission ∧
    (disconnect conn
        (processEvents (items.map RealtimeServerEvent.conversationItemCreated) s).1).ui.currentResponse =
      s.currentResponse ∧
    (clearConversation (disconnect conn
        (processEvents (items.map RealtimeServerEvent.conversationItemCreated) s).1).ui).conversationHistory =
      [] := by
  rw [processEvents_itemCreated_fst]
  exact ⟨rfl, rfl, rfl, rfl⟩

/-- The conversation item A of the end-to-end scenario. -/
def itemA : ConversationItem :=
  { type := "message", role := some "user",
    content := some [{ type := "input_text", text := some "Will it rain" }] }

/-- The assistant output item of the final response.done event. -/
def assistantHello : ConversationItem :=
  { type := "message", role := some "assistant",
    content := some [{ type := "text", text := some "Hello" }] }

/-- The inbound event sequence of the end-to-end scenario. -/
def scenarioEvents : List RealtimeServerEvent :=
  [RealtimeServerEvent.sessionCreated,
   RealtimeServerEvent.conversationItemCreated itemA,
   RealtimeServerEvent.responseCreated,
   RealtimeServerEvent.responseTextDelta "Hel",
   RealtimeServerEvent.responseTextDelta "lo",
   RealtimeServerEvent.responseDone [assistantHello]]

/-- The state and notifications after a successful connect, the data
channel opening, and the scenario events. -/
def scenarioFinal : VoiceInterfaceState × List Notification :=
  processEvents scenarioEvents
    (dataChannelOnOpen okTokenBody
      (connect envSuccess initialConnectionState initialState).conn
      (connect envSuccess initialConnectionState initialState).ui).ui

/-- C8: the end-to-end scenario: after a successful connect and channel
open, processing session.created, conversation.item.created item A,
response.created, two text deltas Hel and lo, and a response.done whose
assistant output carries the text Hello yields isConnected true,
isSpeaking false, history exactly item A, no error, the deltas
accumulated in order into the scratch field, and exactly one
response-received notification with payload Hello. -/
theorem end_to_end_scenario :
    scenarioFinal.1.isConnected = true ∧
    scenarioFinal.1.isSpeaking = false ∧
    scenarioFinal.1.conversationHistory = [itemA] ∧
    scenarioFinal.1.error = none ∧
    scenarioFinal.1.currentResponse = some "Hello" ∧
    scenarioFinal.2 = [Notification.responseReceived "Hello"] := by
  decide

/-- C1 counterexample: after a failed SDP negotiation, connect completes
with the peer connection, data channel, microphone stream and audio
element all still stored in the connection state — the section 4.6
teardown, which would reset the state to the all-null baseline, was not
invoked on this connect-path failure. -/
theorem connect_failure_keeps_handles_cex :
    (connect envSdpFail initialConnectionState initialState).conn.peerConnection.isSome = true ∧
    (connect envSdpFail initialConnectionState initialState).conn.dataChannel.isSome = true ∧
    (connect envSdpFail initialConnectionState initialState).conn.localStream.isSome = true ∧
    (connect envSdpFail initialConnectionState initialState).conn.audioElement.isSome = true ∧
    (connect envSdpFail initialConnectionState initialState).conn ≠ initialConnectionState := by
  decide

/-- C1 amended: a connect-path failure does not invoke the section 4.6
teardown.  A credential-fetch failure lands in the catch block, which only
resets the connected and connecting flags and records the error, leaving
every handle of the incoming connection state untouched (so when no peer
connection existed nothing is closed, and nothing errors).  A microphone
failure returns from inside the try block with the connecting flags still
set and the fresh peer connection handle retained.  A negotiation or
remote-description failure lands in the catch block with the peer
connection, data channel, microphone stream and audio element all
retained in the connection state. -/
theorem connect_failure_no_teardown (env : ConnectEnv)
    (conn0 : WebRTCConnectionState) (s0 : VoiceInterfaceState)
    (hcg : conn0.connecting = false) (hcd : conn0.connected = false) :
    (env.tokenResponse.ok = false →
      connect env conn0 s0 =
        connectCatch (env.tokenResponse.body.error.getD "Failed to get ephemeral token")
          { conn0 with connecting := true }
          { s0 with isConnecting := true, error := none }
          [ConnectStep.fetchToken]) ∧
    (env.tokenResponse.ok = true → env.micResult = none →
      (connect env conn0 s0).conn.connecting = true ∧
      (connect env conn0 s0).conn.peerConnection.isSome = true ∧
      (connect env conn0 s0).ui.isConnecting = true) ∧
    (∀ stream, env.tokenResponse.ok = true → env.micResult = some stream →
      env.sdpResponse.ok = false →
      (connect env conn0 s0).conn.connecting = false ∧
      (connect env conn0 s0).conn.connected = false ∧
      (connect env conn0 s0).conn.peerConnection.isSome = true ∧
      (connect env conn0 s0).conn.dataChannel.isSome = true ∧
      (connect env conn0 s0).conn.localStream = some stream ∧
      (connect env conn0 s0).conn.audioElement.isSome = true ∧
      (connect env conn0 s0).ui.isConnecting = false ∧
      (connect env conn0 s0).ui.error.isSome = true) ∧
    (∀ stream msg, env.tokenResponse.ok = true → env.micResult = some stream →
      env.sdpResponse.ok = true → env.remoteDescError = some msg →
      (connect env conn0 s0).conn.connecting = false ∧
      (connect env conn0 s0).conn.peerConnection.isSome = true ∧
      (connect env conn0 s0).conn.dataChannel.isSome = true ∧
      (connect env conn0 s0).ui.error = some msg) := by
  refine ⟨?_, ?_, ?_, ?_⟩
  · intro hok
    simp [connect, getEphemeralToken, hcg, hcd, hok]
  · intro hok hmic
    simp [connect, getEphemeralToken, hcg, hcd, hok, hmic]
  · intro stream hok hmic hsdp
    simp [connect, getEphemeralToken, connectCatch, hcg, hcd, hok, hmic, hsdp]
  · intro stream msg hok hmic hsdp hrd
    simp [connect, getEphemeralToken, connectCatch, hcg, hcd, hok, hmic, hsdp, hrd]

/-- Witness for C1 at the concrete failing-negotiation environment. -/
theorem connect_failure_no_teardown_witness :
    (connect envSdpFail initialConnectionState initialState).conn.connecting = false ∧
    (connect envSdpFail initialConnectionState initialState).conn.peerConnection.isSome = true ∧
    (connect envSdpFail initialConnectionState initialState).ui.error.isSome = true := by
  have h := (connect_failure_no_teardown envSdpFail initialConnectionState initialState
    rfl rfl).2.2.1 micStream1 rfl rfl rfl
  exact ⟨h.1, h.2.2.1, h.2.2.2.2.2.2.2⟩

/-- C2: evaluation at the failing input: connect with a successful
credential fetch and a rejected microphone request returns with the
connecting flag and isConnecting still true, the peer connection handle
still stored, hasPermission false, isConnected false, and no SDP exchange
performed (no network exchange with the remote signaling endpoint). -/
theorem connect_mic_failure_eval :
    (connect envMicFail initialConnectionState initialState).conn.connecting = true ∧
    (connect envMicFail initialConnectionState initialState).ui.isConnecting = true ∧
    (connect envMicFail initialConnectionState initialState).conn.peerConnection.isSome = true ∧
    (connect envMicFail initialConnectionState initialState).ui.hasPermission = false ∧
    (connect envMicFail initialConnectionState initialState).ui.isConnected = false ∧
    ConnectStep.fetchSdp ∉ (connect envMicFail initialConnectionState initialState).steps := by
  decide

/-- C3 counterexample: a success response whose body lacks the secret
value is accepted without failure by getEphemeralToken, and connect with
such a response proceeds past credential acquisition to peer
construction — no malformed-response failure exists. -/
theorem getEphemeralToken_missing_secret_cex :
    getEphemeralToken missingSecretResponse = Except.ok missingSecretResponse.body ∧
    missingSecretResponse.body.value = none ∧
    ConnectStep.createPeerConnection ∈
      (connect envMissingSecret initialConnectionState initialState).steps := by
  decide

/-- C3 amended: credential acquisition fails exactly when the backend
returns a non-success HTTP status (throwing the error field of the body,
or a fallback message); a success body missing the secret field is
accepted unchecked.  There is no internal retry: every connect invocation
issues at most one token request.  On an HTTP failure the connect path
records the error and does not reach peer construction. -/
theorem credential_acquisition_amended :
    (∀ response : HttpResponse TokenResponseBody,
      (∃ msg, getEphemeralToken response = Except.error msg) ↔ response.ok = false) ∧
    (∀ env conn0 s0, conn0.connecting = false → conn0.connected = false →
      env.tokenResponse.ok = false →
      (connect env conn0 s0).steps = [ConnectStep.fetchToken] ∧
      (connect env conn0 s0).ui.error.isSome = true ∧
      ConnectStep.createPeerConnection ∉ (connect env conn0 s0).steps) ∧
    (∀ env conn0 s0,
      ((connect env conn0 s0).steps.count ConnectStep.fetchToken) ≤ 1) := by
  refine ⟨?_, ?_, ?_⟩
  · intro response
    constructor
    · rintro ⟨msg, hmsg⟩
      by_cases hok : response.ok = true
      · simp [getEphemeralToken, hok] at hmsg
      · simpa using hok
    · intro hok
      exact ⟨response.body.error.getD "Failed to get ephemeral token",
        by simp [getEphemeralToken, hok]⟩
  · intro env conn0 s0 hcg hcd hok
    simp [connect, getEphemeralToken, connectCatch, hcg, hcd, hok]
  · intro env conn0 s0
    by_cases hg : (conn0.connecting || conn0.connected) = true
    · simp [connect, hg]
    · have hg2 : conn0.connecting = false ∧ conn0.connected = false := by
        simpa using hg
      by_cases hok : env.tokenResponse.ok = true
      · cases hmic : env.micResult with
        | none =>
          simp [connect, getEphemeralToken, hg2.1, hg2.2, hok, hmic, List.count_append]
        | some stream =>
          by_cases hsdp : env.sdpResponse.ok = true
          · cases hrd : env.remoteDescError with
            | none =>
              simp [connect, getEphemeralToken, hg2.1, hg2.2, hok, hmic, hsdp, hrd,
                List.count_append, List.count_cons]
              cases hf : List.find? (fun t => t.kind == "audio") stream.tracks <;>
                simp [hf, List.count_cons]
            | some msg =>
              simp [connect, getEphemeralToken, connectCatch, hg2.1, hg2.2, hok, hmic,
                hsdp, hrd, List.count_append, List.count_cons]
              cases hf : List.find? (fun t => t.kind == "audio") stream.tracks <;>
                simp [hf, List.count_cons]
          · simp [connect, getEphemeralToken, connectCatch, hg2.1, hg2.2, hok, hmic,
              hsdp, List.count_append, List.count_cons]
            cases hf : List.find? (fun t => t.kind == "audio") stream.tracks <;>
              simp [hf, List.count_cons]
      · simp [connect, getEphemeralToken, connectCatch, hg2.1, hg2.2, hok,
          List.count_cons]

/-- Witness for C3 at the concrete failing token response. -/
theorem credential_acquisition_amended_witness :
    (∃ msg, getEphemeralToken failTokenResponse = Except.error msg) ∧
    (connect envTokenFail initialConnectionState initialState).steps =
      [ConnectStep.fetchToken] :=
  ⟨(credential_acquisition_amended.1 failTokenResponse).mpr rfl,
   (credential_acquisition_amended.2.1 envTokenFail initialConnectionState initialState
      rfl rfl rfl).1⟩

end RealtimeVoice
